import Mathlib

/-!
Shallow embedding of the persistence layer of the m_hike application
(`src/lib/database.ts`): the fallback ("mock") store built on a single
serialized key, the statement dispatcher of `createMockDatabase`, the
`DatabaseService` repository operations on that backend, and the
backend-selection / transaction-execution logic.
-/

/-- The persisted Hike record (`interface Hike`, database.ts lines 5-18):
every field is stored as text. -/
structure Hike where
  id : String
  name : String
  location : String
  date : String
  parking : String
  length : String
  difficulty : String
  description : String
  weather : String
  rating : String
  companions : String
  createdAt : String

deriving instance DecidableEq for Hike

/-- A hike as it arrives at `DatabaseService.addHike` (an
`Omit<Hike, 'createdAt'>`; the legacy wrapper passes a `Partial<Hike>`):
a field that is absent, `undefined` or `null` is `none`. -/
structure HikeInput where
  id : Option String
  name : Option String
  location : Option String
  date : Option String
  parking : Option String
  length : Option String
  difficulty : Option String
  description : Option String
  weather : Option String
  rating : Option String
  companions : Option String

deriving instance DecidableEq for HikeInput

/-- Models the JavaScript defaulting idiom `x || ''` (database.ts lines
302-314 and 450-462): an absent/`undefined`/`null` field becomes `""`; the
only falsy string is `""`, on which `|| ''` is the identity, so on present
strings the idiom is the identity. -/
def orEmpty (o : Option String) : String := o.getD ""

/-- Models `new Date(s).getTime()` as used by the mock sort comparator
(database.ts line 95): the decimal digits of the string are concatenated
into one number.  On the valid ISO-8601 `YYYY-MM-DD` date strings of the
data model this is strictly monotone in the parsed timestamp, and the sort
below only ever compares these values, so the induced order is the same. -/
def dateVal (s : String) : Nat :=
  s.data.foldl (fun n c => if c.isDigit then n * 10 + (c.toNat - 48) else n) 0

/-- One insertion step of the stable descending-by-date sort.  A row is
inserted behind every existing row whose date is strictly more recent, and
in front of the first row whose date is not, so rows with equal dates keep
their original relative order. -/
def insertByDate (x : Hike) : List Hike → List Hike
  | [] => [x]
  | y :: ys =>
    if dateVal x.date < dateVal y.date then y :: insertByDate x ys
    else x :: y :: ys

/-- Models `rows.slice().sort((a, b) => new Date(b.date).getTime() -
new Date(a.date).getTime())` (database.ts line 95).  `Array.prototype.sort`
is stable (ES2019), and a stable sort under a total comparator is the unique
permutation that is weakly sorted and keeps equal-key elements in their
original order; the insertion sort below is exactly that permutation. -/
def sortByDateDesc (l : List Hike) : List Hike := l.foldr insertByDate []

/-- The value serialized behind the `mhike_hikes_v1` storage key: either a
parseable list of rows, or an unreadable blob on which `JSON.parse` throws
(database.ts lines 40-41). -/
inductive Blob
  | ok (rows : List Hike)
  | corrupt

deriving instance DecidableEq for Blob

/-- `readAll` (database.ts lines 37-52): deserialize the stored blob; the
catch branch turns a parse failure into the empty list. -/
def readAll : Blob → List Hike
  | .ok rows => rows
  | .corrupt => []

/-- `writeAll` (database.ts lines 54-66): re-serialize the full list behind
the storage key. -/
def writeAll (rows : List Hike) : Blob := .ok rows

/-- The result-row set handed to the success callback via `createResultRows`
(database.ts lines 68-72): a list of hike rows, or the single synthetic
count record produced by the COUNT branch (line 135). -/
inductive MockRows
  | rows (arr : List Hike)
  | countRow (n : Nat)

deriving instance DecidableEq for MockRows

/-- Which callback `executeSql` invokes: `success` with a result-row set, or
`error` (reachable only from the catch around the dispatcher, database.ts
lines 155-157, which only fires on a thrown exception). -/
inductive SqlOutcome
  | success (res : MockRows)
  | failure

deriving instance DecidableEq for SqlOutcome

/-- The characters of a string literal. -/
def chars (s : String) : List Char := s.data

/-- Whitespace characters relevant to the SQL template literals of
database.ts (the JavaScript `trim()` set restricted to those that occur). -/
def isSqlWS (c : Char) : Bool := c = ' ' || c = '\n' || c = '\t' || c = '\r'

/-- ASCII upper-casing of one character, as `toUpperCase()` acts on the
ASCII-only SQL texts of database.ts. -/
def upChar (c : Char) : Char :=
  if c.toNat ≥ 97 && c.toNat ≤ 122 then Char.ofNat (c.toNat - 32) else c

/-- Models `sql.trim().toUpperCase()` (database.ts line 84), producing the
character list the dispatcher's `startsWith` tests inspect. -/
def normalizeSql (s : String) : List Char :=
  (((s.data.dropWhile isSqlWS).reverse.dropWhile isSqlWS).reverse).map upChar

/-- The row the INSERT branch pushes (database.ts lines 87-88), built from
the positional parameters in the fixed field order.  Positional access past
the end of `params` is modelled as `""`; `DatabaseService.addHike` always
supplies all twelve positions. -/
def rowFromParams (params : List String) : Hike :=
  { id := params.getD 0 "", name := params.getD 1 "", location := params.getD 2 "",
    date := params.getD 3 "", parking := params.getD 4 "", length := params.getD 5 "",
    difficulty := params.getD 6 "", description := params.getD 7 "", weather := params.getD 8 "",
    rating := params.getD 9 "", companions := params.getD 10 "", createdAt := params.getD 11 "" }

/-- The field replacement the UPDATE branch applies to a matching row
(database.ts lines 115-128).  Note `createdAt := params.getD 10` is faithful
to the source's `createdAt: params[10]`, written for a twelve-parameter
statement; `DatabaseService.updateHike` sends eleven parameters, whose index
10 is the id.  Indices 0-10 always exist on the service's calls. -/
def updRowFromParams (params : List String) (r : Hike) : Hike :=
  { r with
    name := params.getD 0 "", location := params.getD 1 "", date := params.getD 2 "",
    parking := params.getD 3 "", length := params.getD 4 "", difficulty := params.getD 5 "",
    description := params.getD 6 "", weather := params.getD 7 "", rating := params.getD 8 "",
    companions := params.getD 9 "", createdAt := params.getD 10 "" }

/-- The `executeSql` dispatcher of `createMockDatabase` (database.ts lines
77-158), acting on the blob behind the storage key and returning the new
blob together with the invoked callback.  The branches are tested in source
order; in particular the `SELECT * FROM HIKES` test (line 93) precedes the
`SELECT * FROM HIKES WHERE ID` test (line 138), so the latter branch is
unreachable.  Comparisons of a row id against `params[i]` when `params` is
too short (JavaScript `undefined`) can never match a string id and are
modelled by the `none` match arms. -/
def mockExecuteSql (sql : String) (params : List String) (b : Blob) : Blob × SqlOutcome :=
  if List.isPrefixOf (chars "INSERT INTO HIKES") (normalizeSql sql) then
    (writeAll (readAll b ++ [rowFromParams params]), .success (.rows []))
  else if List.isPrefixOf (chars "SELECT * FROM HIKES") (normalizeSql sql) then
    (b, .success (.rows (sortByDateDesc (readAll b))))
  else if List.isPrefixOf (chars "DELETE FROM HIKES WHERE ID") (normalizeSql sql) then
    (writeAll (match params.head? with
      | none => readAll b
      | some theId => (readAll b).filter (fun r => !(r.id == theId))),
     .success (.rows []))
  else if normalizeSql sql = chars "DELETE FROM HIKES" then
    (writeAll [], .success (.rows []))
  else if List.isPrefixOf (chars "UPDATE HIKES") (normalizeSql sql) then
    (writeAll (match params.getLast? with
      | none => readAll b
      | some theId => (readAll b).map (fun r =>
          if r.id == theId then updRowFromParams params r else r)),
     .success (.rows []))
  else if List.isPrefixOf (chars "SELECT COUNT(*)") (normalizeSql sql) then
    (b, .success (.countRow (readAll b).length))
  else if List.isPrefixOf (chars "SELECT * FROM HIKES WHERE ID") (normalizeSql sql) then
    (b, .success (.rows (match params.head? with
      | none => []
      | some theId => (readAll b).filter (fun r => r.id == theId))))
  else if List.isPrefixOf (chars "DROP TABLE") (normalizeSql sql) then
    (writeAll [], .success (.rows []))
  else if List.isPrefixOf (chars "CREATE TABLE") (normalizeSql sql) then
    (b, .success (.rows []))
  else
    (b, .success (.rows []))

/-- The create-table statement of `DatabaseService.initDatabase`
(database.ts lines 274-289). -/
def createTableSQL : String := "
      CREATE TABLE IF NOT EXISTS hikes (
        id TEXT PRIMARY KEY NOT NULL,
        name TEXT NOT NULL,
        location TEXT NOT NULL,
        date TEXT NOT NULL,
        parking TEXT NOT NULL,
        length TEXT NOT NULL,
        difficulty TEXT NOT NULL,
        description TEXT,
        weather TEXT,
        rating TEXT,
        companions TEXT,
        createdAt TEXT NOT NULL
      );
    "

/-- The insert statement of `DatabaseService.addHike` (database.ts lines
297-300). -/
def insertHikeSQL : String := "
      INSERT INTO hikes (id, name, location, date, parking, length, difficulty, description, weather, rating, companions, createdAt)
      VALUES (?, ?, ?, ?, ?, ?, ?, ?, ?, ?, ?, ?)
    "

/-- The select-all statement of `DatabaseService.getAllHikes`
(database.ts line 335). -/
def selectAllSQL : String := "SELECT * FROM hikes ORDER BY date DESC"

/-- The select-by-id statement of `DatabaseService.getHikeById`
(database.ts line 351). -/
def selectByIdSQL : String := "SELECT * FROM hikes WHERE id = ?"

/-- The update statement of `DatabaseService.updateHike`
(database.ts lines 368-373). -/
def updateHikeSQL : String := "
      UPDATE hikes
      SET name = ?, location = ?, date = ?, parking = ?, length = ?, difficulty = ?,
          description = ?, weather = ?, rating = ?, companions = ?
      WHERE id = ?
    "

/-- The delete-by-id statement of `DatabaseService.deleteHike`
(database.ts line 394). -/
def deleteByIdSQL : String := "DELETE FROM hikes WHERE id = ?"

/-- The delete-all statement of `DatabaseService.deleteAllHikes`
(database.ts line 400). -/
def deleteAllSQL : String := "DELETE FROM hikes"

/-- The drop statement of `DatabaseService.resetDatabase`
(database.ts line 407). -/
def dropTableSQL : String := "DROP TABLE IF EXISTS hikes"

/-- The count statement of `DatabaseService.getDatabaseStats`
(database.ts line 421). -/
def countSQL : String := "SELECT COUNT(*) as count FROM hikes"

theorem dispatch_insert (params : List String) (b : Blob) :
    mockExecuteSql insertHikeSQL params b =
      (writeAll (readAll b ++ [rowFromParams params]), .success (.rows [])) := rfl

theorem dispatch_selectAll (params : List String) (b : Blob) :
    mockExecuteSql selectAllSQL params b =
      (b, .success (.rows (sortByDateDesc (readAll b)))) := rfl

theorem dispatch_selectById (params : List String) (b : Blob) :
    mockExecuteSql selectByIdSQL params b =
      (b, .success (.rows (sortByDateDesc (readAll b)))) := rfl

theorem dispatch_deleteById (params : List String) (b : Blob) :
    mockExecuteSql deleteByIdSQL params b =
      (writeAll (match params.head? with
        | none => readAll b
        | some theId => (readAll b).filter (fun r => !(r.id == theId))),
       .success (.rows [])) := rfl

theorem dispatch_deleteAll (params : List String) (b : Blob) :
    mockExecuteSql deleteAllSQL params b = (writeAll [], .success (.rows [])) := rfl

theorem dispatch_update (params : List String) (b : Blob) :
    mockExecuteSql updateHikeSQL params b =
      (writeAll (match params.getLast? with
        | none => readAll b
        | some theId => (readAll b).map (fun r =>
            if r.id == theId then updRowFromParams params r else r)),
       .success (.rows [])) := rfl

theorem dispatch_drop (params : List String) (b : Blob) :
    mockExecuteSql dropTableSQL params b = (writeAll [], .success (.rows [])) := rfl

theorem dispatch_create (params : List String) (b : Blob) :
    mockExecuteSql createTableSQL params b = (b, .success (.rows [])) := rfl

/-- The parameter list `DatabaseService.addHike` builds (database.ts lines
302-328): each field of `hikeWithDefaults` is the input field defaulted by
`|| ''` (the four optional fields get a second, idempotent `|| ''` at lines
323-326), followed by `createdAt`, the `new Date().toISOString()` value
passed in here as `now`. -/
def addHikeParams (hike : HikeInput) (now : String) : List String :=
  [orEmpty hike.id, orEmpty hike.name, orEmpty hike.location, orEmpty hike.date,
   orEmpty hike.parking, orEmpty hike.length, orEmpty hike.difficulty,
   orEmpty hike.description, orEmpty hike.weather, orEmpty hike.rating,
   orEmpty hike.companions, now]

/-- The record the defaulted parameters describe: what `addHike` asks the
backend to store. -/
def hikeRowOf (hike : HikeInput) (now : String) : Hike :=
  { id := orEmpty hike.id, name := orEmpty hike.name, location := orEmpty hike.location,
    date := orEmpty hike.date, parking := orEmpty hike.parking, length := orEmpty hike.length,
    difficulty := orEmpty hike.difficulty, description := orEmpty hike.description,
    weather := orEmpty hike.weather, rating := orEmpty hike.rating,
    companions := orEmpty hike.companions, createdAt := now }

/-- `DatabaseService.addHike` on the fallback store (database.ts lines
295-331): defaulting plus the insert statement. -/
def addHike (hike : HikeInput) (now : String) (b : Blob) : Blob × SqlOutcome :=
  mockExecuteSql insertHikeSQL (addHikeParams hike now) b

/-- `DatabaseService.getAllHikes` on the fallback store (database.ts lines
334-347): run the select-all statement and unwrap `result.data.rows._array
|| []`. -/
def getAllHikes (b : Blob) : List Hike :=
  match (mockExecuteSql selectAllSQL [] b).2 with
  | .success (.rows rs) => rs
  | _ => []

/-- `DatabaseService.getHikeById` on the fallback store (database.ts lines
350-364): run the select-by-id statement and return
`hikes.length > 0 ? hikes[0] : null`. -/
def getHikeById (id : String) (b : Blob) : Option Hike :=
  match (mockExecuteSql selectByIdSQL [id] b).2 with
  | .success (.rows rs) => rs.head?
  | _ => none

/-- The eleven positional parameters of `DatabaseService.updateHike`
(database.ts lines 375-387): every field except `createdAt`, with the id
last. -/
def updateHikeParams (h : Hike) : List String :=
  [h.name, h.location, h.date, h.parking, h.length, h.difficulty,
   h.description, h.weather, h.rating, h.companions, h.id]

/-- `DatabaseService.updateHike` on the fallback store (database.ts lines
367-390). -/
def updateHike (h : Hike) (b : Blob) : Blob × SqlOutcome :=
  mockExecuteSql updateHikeSQL (updateHikeParams h) b

/-- `DatabaseService.deleteHike` on the fallback store (database.ts lines
393-396). -/
def deleteHike (id : String) (b : Blob) : Blob × SqlOutcome :=
  mockExecuteSql deleteByIdSQL [id] b

/-- `DatabaseService.deleteAllHikes` on the fallback store (database.ts
lines 399-402). -/
def deleteAllHikes (b : Blob) : Blob × SqlOutcome :=
  mockExecuteSql deleteAllSQL [] b

/-- The uniform result envelope (`interface DatabaseResult`, database.ts
lines 20-24; the untyped `data` payload is not needed by the claims below). -/
structure DatabaseResult where
  success : Bool
  error : Option String := none

deriving instance DecidableEq for DatabaseResult

/-- `DatabaseService.resetDatabase` (database.ts lines 405-417) over an
abstract executor (the bound backend seen through `executeTransaction`):
returns the repository result together with the ordered trace of statements
issued.  The source returns `dropResult` without calling `initDatabase()`
when the drop fails. -/
def resetDatabase (exec : String → List String → DatabaseResult) :
    DatabaseResult × List String :=
  let dropResult := exec dropTableSQL []
  if dropResult.success then (exec createTableSQL [], [dropTableSQL, createTableSQL])
  else (dropResult, [dropTableSQL])

/-- A bound backend handle as `executeTransaction` inspects it: whether its
`transaction` member is a function (database.ts line 226). -/
structure Backend where
  hasTransactionFn : Bool

deriving instance DecidableEq for Backend

/-- The handle `createMockDatabase()` returns always carries a `transaction`
function (database.ts lines 74-161). -/
def mockBackend : Backend := { hasTransactionFn := true }

/-- The `db` / `isInitialized` fields of `DatabaseService` (database.ts
lines 166-167). -/
structure ServiceState where
  db : Option Backend
  isInitialized : Bool

deriving instance DecidableEq for ServiceState

/-- `DatabaseService.initializeDatabase` (database.ts lines 173-209), run by
the constructor.  `web` is `Platform.OS === 'web'`; `opened` is the handle
the two probes (`openDatabase`, then `openDatabaseSync`) produce, `none`
when both are unavailable or the probe threw (the inner catch at lines
191-194); `outerThrows` stands for an exception anywhere in the outer `try`,
whose catch (lines 204-208) binds the mock store.  Every path ends with a
bound backend and `isInitialized = true`. -/
def initializeDatabase (web : Bool) (opened : Option Backend) (outerThrows : Bool) :
    ServiceState :=
  if outerThrows then { db := some mockBackend, isInitialized := true }
  else if web then { db := some mockBackend, isInitialized := true }
  else match opened with
    | some hdl => { db := some hdl, isInitialized := true }
    | none => { db := some mockBackend, isInitialized := true }

/-- The three resolve paths of `DatabaseService.executeTransaction`
(database.ts lines 211-270): the guard error `'Database not initialized'`,
the error `'Database transaction function is not available'` after the
one-shot re-bind to the mock store, or an actual execution against the
bound backend. -/
inductive ExecOutcome
  | notInitialized
  | unavailable
  | ran (result : DatabaseResult)

deriving instance DecidableEq for ExecOutcome

/-- `DatabaseService.executeTransaction` (database.ts lines 211-270) up to
the choice of backend: `run` is the execution of the statement against a
backend (success and error callbacks folded into one `DatabaseResult`). -/
def executeTransaction (st : ServiceState) (run : Backend → DatabaseResult) : ExecOutcome :=
  match st.db with
  | none => .notInitialized
  | some b =>
    if !st.isInitialized then .notInitialized
    else if !b.hasTransactionFn then
      if !mockBackend.hasTransactionFn then .unavailable
      else .ran (run mockBackend)
    else .ran (run b)

theorem insertByDate_perm (x : Hike) (l : List Hike) : (insertByDate x l).Perm (x :: l) := by
  induction l with
  | nil => exact List.Perm.refl _
  | cons y ys ih =>
    by_cases h : dateVal x.date < dateVal y.date
    · simp only [insertByDate, if_pos h]
      exact (ih.cons y).trans (List.Perm.swap x y ys)
    · simp only [insertByDate, if_neg h]
      exact List.Perm.refl _

theorem sortByDateDesc_perm (l : List Hike) : (sortByDateDesc l).Perm l := by
  induction l with
  | nil => exact List.Perm.refl _
  | cons x xs ih =>
    exact (insertByDate_perm x (sortByDateDesc xs)).trans (ih.cons x)

theorem insertByDate_pairwise (x : Hike) (l : List Hike)
    (h : l.Pairwise (fun a b => dateVal b.date ≤ dateVal a.date)) :
    (insertByDate x l).Pairwise (fun a b => dateVal b.date ≤ dateVal a.date) := by
  induction l with
  | nil => simp [insertByDate]
  | cons y ys ih =>
    rcases List.pairwise_cons.mp h with ⟨hy, hys⟩
    by_cases hc : dateVal x.date < dateVal y.date
    · simp only [insertByDate, if_pos hc]
      refine List.pairwise_cons.mpr ⟨?_, ih hys⟩
      intro z hz
      rcases List.mem_cons.mp ((insertByDate_perm x ys).mem_iff.mp hz) with rfl | hz'
      · exact Nat.le_of_lt hc
      · exact hy z hz'
    · simp only [insertByDate, if_neg hc]
      refine List.pairwise_cons.mpr ⟨?_, h⟩
      intro z hz
      rcases List.mem_cons.mp hz with rfl | hz'
      · exact Nat.le_of_not_lt hc
      · exact Nat.le_trans (hy z hz') (Nat.le_of_not_lt hc)

theorem sortByDateDesc_pairwise (l : List Hike) :
    (sortByDateDesc l).Pairwise (fun a b => dateVal b.date ≤ dateVal a.date) := by
  induction l with
  | nil => simp [sortByDateDesc]
  | cons x xs ih => exact insertByDate_pairwise x (sortByDateDesc xs) ih

theorem filter_insertByDate (x : Hike) (l : List Hike) (d : Nat) :
    (insertByDate x l).filter (fun r => dateVal r.date == d) =
      if dateVal x.date = d then x :: l.filter (fun r => dateVal r.date == d)
      else l.filter (fun r => dateVal r.date == d) := by
  induction l with
  | nil => by_cases hx : dateVal x.date = d <;> simp [insertByDate, hx]
  | cons y ys ih =>
    by_cases hc : dateVal x.date < dateVal y.date
    · simp only [insertByDate, if_pos hc]
      by_cases hx : dateVal x.date = d
      · have hy : ¬ dateVal y.date = d := by omega
        simp [List.filter_cons, hx, hy, ih]
      · by_cases hy : dateVal y.date = d <;>
          simp [List.filter_cons, hx, hy, ih]
    · simp only [insertByDate, if_neg hc]
      by_cases hx : dateVal x.date = d <;>
        by_cases hy : dateVal y.date = d <;>
          simp [List.filter_cons, hx, hy]

theorem sortByDateDesc_stable (l : List Hike) (d : Nat) :
    (sortByDateDesc l).filter (fun r => dateVal r.date == d) =
      l.filter (fun r => dateVal r.date == d) := by
  induction l with
  | nil => rfl
  | cons x xs ih =>
    show (insertByDate x (sortByDateDesc xs)).filter _ = _
    rw [filter_insertByDate]
    by_cases hx : dateVal x.date = d <;> simp [List.filter_cons, hx, ih]

theorem sortByDateDesc_eq_of_perm (l₁ l₂ : List Hike) (hp : l₁.Perm l₂)
    (hd : l₁.Pairwise (fun a b => dateVal a.date ≠ dateVal b.date)) :
    sortByDateDesc l₁ = sortByDateDesc l₂ := by
  have hsym : ∀ {a b : Hike},
      dateVal a.date ≠ dateVal b.date → dateVal b.date ≠ dateVal a.date :=
    fun h => h.symm
  have perm : (sortByDateDesc l₁).Perm (sortByDateDesc l₂) :=
    (sortByDateDesc_perm l₁).trans (hp.trans (sortByDateDesc_perm l₂).symm)
  have hd₁ : (sortByDateDesc l₁).Pairwise (fun a b => dateVal a.date ≠ dateVal b.date) :=
    (((sortByDateDesc_perm l₁)).pairwise_iff hsym).mpr hd
  have hd₂ : (sortByDateDesc l₂).Pairwise (fun a b => dateVal a.date ≠ dateVal b.date) :=
    (perm.pairwise_iff hsym).mp hd₁
  have hs₁ : (sortByDateDesc l₁).Pairwise (fun a b => dateVal b.date < dateVal a.date) :=
    List.Pairwise.imp₂ (fun _ _ h1 h2 => Nat.lt_of_le_of_ne h1 (fun e => h2 e.symm))
      (sortByDateDesc_pairwise l₁) hd₁
  have hs₂ : (sortByDateDesc l₂).Pairwise (fun a b => dateVal b.date < dateVal a.date) :=
    List.Pairwise.imp₂ (fun _ _ h1 h2 => Nat.lt_of_le_of_ne h1 (fun e => h2 e.symm))
      (sortByDateDesc_pairwise l₂) hd₂
  letI : IsAntisymm Hike (fun a b => dateVal b.date < dateVal a.date) :=
    ⟨fun _ _ h1 h2 => (Nat.lt_asymm h1 h2).elim⟩
  exact List.eq_of_perm_of_sorted perm hs₁ hs₂

/-- A stored record used as a concrete fixture (the §8 scenario hike). -/
def hikeA : Hike :=
  { id := "1", name := "Snowdon", location := "Wales", date := "2024-05-01",
    parking := "Yes", length := "8.5", difficulty := "Hard", description := "",
    weather := "", rating := "", companions := "",
    createdAt := "2024-05-02T00:00:00.000Z" }

/-- A second stored record with a more recent date. -/
def hikeB : Hike :=
  { id := "2", name := "Ben Nevis", location := "Scotland", date := "2024-06-01",
    parking := "No", length := "10", difficulty := "Hard", description := "",
    weather := "", rating := "", companions := "",
    createdAt := "2024-06-02T00:00:00.000Z" }

/-- The §8 scenario hike as it arrives at `addHike`. -/
def inputA : HikeInput :=
  { id := some "1", name := some "Snowdon", location := some "Wales",
    date := some "2024-05-01", parking := some "Yes", length := some "8.5",
    difficulty := some "Hard", description := none, weather := none,
    rating := none, companions := none }

/-- An input sharing `inputA`'s date but with a different id. -/
def inputC : HikeInput :=
  { id := some "3", name := some "Cadair Idris", location := some "Wales",
    date := some "2024-05-01", parking := some "Yes", length := some "9",
    difficulty := some "Medium", description := none, weather := none,
    rating := none, companions := none }

/-- C1: `create` followed by `getById` on the created id does NOT return the
created record when another record with a more recent date is stored: the
dispatcher matches `SELECT * FROM hikes WHERE id = ?` against the
`SELECT * FROM HIKES` test first, so `getHikeById` receives every row sorted
by date descending and returns the most recent one — here `hikeB` with id
"2", not the freshly created hike with id "1". -/
theorem c1_getById_after_create_returns_most_recent_row :
    getHikeById "1" (addHike inputA "2024-05-02T00:00:00.000Z" (Blob.ok [hikeB])).1 =
      some hikeB
    ∧ hikeB.id ≠ "1"
    ∧ getHikeById "1" (addHike inputA "2024-05-02T00:00:00.000Z" (Blob.ok [hikeB])).1 ≠
        some (hikeRowOf inputA "2024-05-02T00:00:00.000Z") := by
  exact ⟨rfl, by decide, by decide⟩

/-- C2: the select-by-id statement, run through the dispatcher against a
store that holds a record with the requested id "1" and one with id "2",
returns BOTH records (all rows, sorted by date descending), because the
`SELECT * FROM HIKES` test at line 93 shadows the
`SELECT * FROM HIKES WHERE ID` branch at line 138. -/
theorem c2_selectById_statement_returns_all_rows :
    (mockExecuteSql selectByIdSQL ["1"] (Blob.ok [hikeA, hikeB])).2 =
      SqlOutcome.success (.rows [hikeB, hikeA])
    ∧ hikeB.id ≠ "1" := by
  exact ⟨rfl, by decide⟩

/-- The §8 record after an edit, as handed to `updateHike` (same id and
`createdAt` as the stored `hikeA`). -/
def hikeAEdit : Hike :=
  { id := "1", name := "Snowdon via Pyg", location := "Wales",
    date := "2024-05-01", parking := "Yes", length := "11",
    difficulty := "Hard", description := "edited", weather := "sunny",
    rating := "5", companions := "Ann",
    createdAt := "2024-05-02T00:00:00.000Z" }

/-- C3: updating a stored record through `DatabaseService.updateHike`
changes its `createdAt`: the mock UPDATE branch reads `createdAt` from
`params[10]`, but the service sends eleven parameters whose index 10 is the
id, so the stored `createdAt` becomes `"1"` instead of staying
`"2024-05-02T00:00:00.000Z"`. -/
theorem c3_update_overwrites_createdAt_with_id :
    (readAll (updateHike hikeAEdit (Blob.ok [hikeA])).1).map Hike.createdAt = ["1"]
    ∧ hikeA.createdAt = "2024-05-02T00:00:00.000Z"
    ∧ ("1" : String) ≠ "2024-05-02T00:00:00.000Z" := by
  exact ⟨rfl, rfl, by decide⟩

/-- C4 counterexample: two records with EQUAL dates inserted in the two
possible orders produce different `listAll` orderings (the stable sort keeps
insertion order on ties), even though the two stores hold exactly the same
records — so the final ordering is not independent of insertion order. -/
theorem c4_equal_dates_ordering_depends_on_insertion_order :
    getAllHikes (addHike inputC "t2" (addHike inputA "t1" (Blob.ok [])).1).1 ≠
      getAllHikes (addHike inputA "t1" (addHike inputC "t2" (Blob.ok [])).1).1
    ∧ (readAll (addHike inputC "t2" (addHike inputA "t1" (Blob.ok [])).1).1).Perm
        (readAll (addHike inputA "t1" (addHike inputC "t2" (Blob.ok [])).1).1) := by
  exact ⟨by decide, by decide⟩

/-- C4 (amended): select-all returns exactly the stored records sorted by
`date` descending (a permutation of the store, weakly sorted on the parsed
date), records of equal date appear in their original insertion order
(stable: filtering any single date value out of the result equals filtering
it out of the store), and for stores whose dates are pairwise distinct the
result is independent of insertion order; on equal dates it necessarily
depends on it (see the counterexample). -/
theorem c4_selectAll_sorted_stable_and_order_independent_on_distinct_dates
    (stored stored₂ : List Hike) (d : Nat) :
    getAllHikes (Blob.ok stored) = sortByDateDesc stored
    ∧ (getAllHikes (Blob.ok stored)).Pairwise
        (fun a b => dateVal b.date ≤ dateVal a.date)
    ∧ (getAllHikes (Blob.ok stored)).Perm stored
    ∧ (getAllHikes (Blob.ok stored)).filter (fun r => dateVal r.date == d) =
        stored.filter (fun r => dateVal r.date == d)
    ∧ (stored.Perm stored₂ →
        stored.Pairwise (fun a b => dateVal a.date ≠ dateVal b.date) →
        getAllHikes (Blob.ok stored) = getAllHikes (Blob.ok stored₂)) := by
  refine ⟨rfl, sortByDateDesc_pairwise stored, sortByDateDesc_perm stored,
    sortByDateDesc_stable stored d, ?_⟩
  intro hperm hdist
  exact sortByDateDesc_eq_of_perm stored stored₂ hperm hdist

/-- Witness for C4: two distinct-date stores that are permutations of one
another yield the same select-all result. -/
theorem c4_selectAll_witness :
    getAllHikes (Blob.ok [hikeA, hikeB]) = getAllHikes (Blob.ok [hikeB, hikeA]) :=
  (c4_selectAll_sorted_stable_and_order_independent_on_distinct_dates
    [hikeA, hikeB] [hikeB, hikeA] 0).2.2.2.2 (by decide) (by decide)

/-- C5: an update statement leaves every record whose id differs from the
statement's final parameter completely unchanged (same position, every field
intact), and when no stored record matches, the whole list is unchanged.
The result set delivered to the success callback is always the empty row
set, i.e. the statement succeeds. -/
theorem c5_update_leaves_non_matching_records_unchanged
    (stored : List Hike) (params : List String) :
    (readAll (mockExecuteSql updateHikeSQL params (Blob.ok stored)).1).length =
      stored.length
    ∧ (mockExecuteSql updateHikeSQL params (Blob.ok stored)).2 =
        SqlOutcome.success (.rows [])
    ∧ ((∀ r ∈ stored, r.id ≠ (params.getLast?).getD "") →
        readAll (mockExecuteSql updateHikeSQL params (Blob.ok stored)).1 = stored)
    ∧ ∀ (i : Nat) (hi : i < stored.length)
        (hi' : i < (readAll (mockExecuteSql updateHikeSQL params (Blob.ok stored)).1).length),
        (stored.get ⟨i, hi⟩).id ≠ (params.getLast?).getD "" →
        (readAll (mockExecuteSql updateHikeSQL params (Blob.ok stored)).1).get ⟨i, hi'⟩ =
          stored.get ⟨i, hi⟩ := by
  rw [dispatch_update]
  cases hL : params.getLast? with
  | none =>
    refine ⟨rfl, rfl, fun _ => rfl, ?_⟩
    intro i hi hi' _
    rfl
  | some theId =>
    refine ⟨List.length_map _ _, rfl, ?_, ?_⟩
    · intro h
      have hcong : ∀ r ∈ stored,
          (if r.id == theId then updRowFromParams params r else r) = r := by
        intro r hr
        have : ¬ (r.id == theId) = true := by
          simpa using h r hr
        rw [if_neg this]
      calc (stored.map fun r => if r.id == theId then updRowFromParams params r else r)
          = stored.map id := List.map_congr_left hcong
        _ = stored := List.map_id stored
    · intro i hi hi' hne
      simp only [readAll, writeAll, List.get_eq_getElem, List.getElem_map]
      rw [if_neg]
      simpa using hne

/-- Witness for C5: updating against a store whose only record has a
different id leaves the store unchanged. -/
theorem c5_update_frame_witness :
    readAll (mockExecuteSql updateHikeSQL (updateHikeParams hikeAEdit) (Blob.ok [hikeB])).1 =
      [hikeB] :=
  (c5_update_leaves_non_matching_records_unchanged [hikeB]
    (updateHikeParams hikeAEdit)).2.2.1 (by decide)

/-- C6: `resetDatabase` issues the drop statement first; when the drop
fails, the drop failure is returned and the create statement is never
issued; when the drop succeeds, the create statement follows and its result
is returned. -/
theorem c6_reset_short_circuits_on_drop_failure
    (exec : String → List String → DatabaseResult) :
    (resetDatabase exec).2.head? = some dropTableSQL
    ∧ ((exec dropTableSQL []).success = false →
        resetDatabase exec = (exec dropTableSQL [], [dropTableSQL]))
    ∧ ((exec dropTableSQL []).success = true →
        resetDatabase exec = (exec createTableSQL [], [dropTableSQL, createTableSQL])) := by
  refine ⟨?_, ?_, ?_⟩
  · cases hs : (exec dropTableSQL []).success <;> simp [resetDatabase, hs]
  · intro h
    simp [resetDatabase, h]
  · intro h
    simp [resetDatabase, h]

/-- Witness for C6: a concrete always-failing executor short-circuits after
the drop; a concrete always-succeeding executor issues drop then create. -/
theorem c6_reset_witness :
    resetDatabase (fun _ _ => { success := false, error := some "drop failed" }) =
      ({ success := false, error := some "drop failed" }, [dropTableSQL])
    ∧ resetDatabase (fun _ _ => { success := true }) =
      ({ success := true }, [dropTableSQL, createTableSQL]) :=
  ⟨(c6_reset_short_circuits_on_drop_failure
      (fun _ _ => { success := false, error := some "drop failed" })).2.1 rfl,
   (c6_reset_short_circuits_on_drop_failure
      (fun _ _ => { success := true })).2.2 rfl⟩

/-- C7: deleting an id held by no stored record succeeds (the success
callback fires with an empty row set) and leaves the store unchanged;
delete-all empties the store and a subsequent select-all returns the empty
list. -/
theorem c7_delete_missing_id_noop_and_deleteAll_empties
    (stored : List Hike) (id : String)
    (habsent : ∀ r ∈ stored, r.id ≠ id) :
    deleteHike id (Blob.ok stored) = (Blob.ok stored, .success (.rows []))
    ∧ (deleteAllHikes (Blob.ok stored)).1 = Blob.ok []
    ∧ (deleteAllHikes (Blob.ok stored)).2 = SqlOutcome.success (.rows [])
    ∧ getAllHikes ((deleteAllHikes (Blob.ok stored)).1) = [] := by
  refine ⟨?_, rfl, rfl, rfl⟩
  show mockExecuteSql deleteByIdSQL [id] (Blob.ok stored) = _
  rw [dispatch_deleteById]
  have : (readAll (Blob.ok stored)).filter (fun r => !(r.id == id)) = stored := by
    apply List.filter_eq_self.mpr
    intro a ha
    simpa using habsent a ha
  simp only [List.head?]
  rw [this]
  rfl

/-- Witness for C7 at a concrete store and a concrete absent id. -/
theorem c7_delete_witness :
    deleteHike "999" (Blob.ok [hikeA]) = (Blob.ok [hikeA], .success (.rows []))
    ∧ getAllHikes ((deleteAllHikes (Blob.ok [hikeA])).1) = [] := by
  have h := c7_delete_missing_id_noop_and_deleteAll_empties [hikeA] "999" (by decide)
  exact ⟨h.1, h.2.2.2⟩

/-- C8: `addHike` appends exactly one record built from the input with every
absent/null field stored as the empty string and `createdAt` set to the
timestamp taken at creation; in particular each of the optional fields
(`description`, `weather`, `rating`, `companions`) and any missing required
field is stored as `""`.  The parameters handed to the backend are plain
strings, so no undefined/null value reaches it. -/
theorem c8_create_stores_missing_fields_as_empty_string
    (input : HikeInput) (now : String) (stored : List Hike) :
    (addHike input now (Blob.ok stored)).1 = Blob.ok (stored ++ [hikeRowOf input now])
    ∧ (input.name = none → (hikeRowOf input now).name = "")
    ∧ (input.description = none → (hikeRowOf input now).description = "")
    ∧ (input.weather = none → (hikeRowOf input now).weather = "")
    ∧ (input.rating = none → (hikeRowOf input now).rating = "")
    ∧ (input.companions = none → (hikeRowOf input now).companions = "")
    ∧ (hikeRowOf input now).createdAt = now := by
  refine ⟨rfl, ?_, ?_, ?_, ?_, ?_, rfl⟩ <;>
    (intro h; simp [hikeRowOf, h, orEmpty])

/-- The §8 scenario input with all optional fields absent. -/
def inputMinimal : HikeInput :=
  { id := some "7", name := some "Scafell Pike", location := some "England",
    date := some "2024-07-01", parking := some "No", length := some "6",
    difficulty := some "Medium", description := none, weather := none,
    rating := none, companions := none }

/-- Witness for C8 at a concrete input whose optional fields are absent. -/
theorem c8_create_defaults_witness :
    (addHike inputMinimal "2024-07-02T00:00:00.000Z" (Blob.ok [])).1 =
      Blob.ok [hikeRowOf inputMinimal "2024-07-02T00:00:00.000Z"]
    ∧ (hikeRowOf inputMinimal "2024-07-02T00:00:00.000Z").description = ""
    ∧ (hikeRowOf inputMinimal "2024-07-02T00:00:00.000Z").weather = ""
    ∧ (hikeRowOf inputMinimal "2024-07-02T00:00:00.000Z").rating = ""
    ∧ (hikeRowOf inputMinimal "2024-07-02T00:00:00.000Z").companions = "" := by
  have h := c8_create_stores_missing_fields_as_empty_string inputMinimal
    "2024-07-02T00:00:00.000Z" []
  exact ⟨h.1, h.2.2.1 rfl, h.2.2.2.1 rfl, h.2.2.2.2.1 rfl, h.2.2.2.2.2.1 rfl⟩

set_option maxHeartbeats 1600000 in
/-- C9: an unreadable stored blob is treated as the empty list: `readAll`
returns `[]` instead of propagating the parse error, and every statement run
against the corrupt blob succeeds and behaves exactly as it would against an
empty stored collection (same callback, readAll-equivalent resulting
state). -/
theorem c9_corrupt_blob_treated_as_empty_list (sql : String) (params : List String) :
    readAll Blob.corrupt = []
    ∧ (mockExecuteSql sql params Blob.corrupt).2 = (mockExecuteSql sql params (Blob.ok [])).2
    ∧ readAll (mockExecuteSql sql params Blob.corrupt).1 =
        readAll (mockExecuteSql sql params (Blob.ok [])).1
    ∧ ∃ res, (mockExecuteSql sql params Blob.corrupt).2 = SqlOutcome.success res := by
  refine ⟨rfl, ?_, ?_, ?_⟩
  · unfold mockExecuteSql
    split_ifs <;> rfl
  · unfold mockExecuteSql
    split_ifs <;> rfl
  · unfold mockExecuteSql
    split_ifs <;> exact ⟨_, rfl⟩

/-- C10: every path of `initializeDatabase` (web platform, successful native
probe, failed probe, or an exception caught by the outer catch) ends with a
bound backend and `isInitialized = true`, so `executeTransaction` can never
take its `'Database not initialized'` branch after construction. -/
theorem c10_not_initialized_branch_unreachable (web : Bool) (opened : Option Backend)
    (outerThrows : Bool) (run : Backend → DatabaseResult) :
    (initializeDatabase web opened outerThrows).isInitialized = true
    ∧ (initializeDatabase web opened outerThrows).db ≠ none
    ∧ executeTransaction (initializeDatabase web opened outerThrows) run ≠
        ExecOutcome.notInitialized := by
  cases web <;> cases outerThrows <;>
    rcases opened with _ | tf <;>
      (simp [initializeDatabase, executeTransaction, mockBackend];
       try (split <;> simp))
